import Mathlib

set_option maxRecDepth 100000

/-!
Shallow embedding of the goHeadache interactive viewport (src/main.go):
the bubbletea `model`, its `Update` event step, and the text-assembly of
`View`, together with the pure helpers `calculateScrollParameters`,
`getDayData`, `extractHeadersAndContent`, `formatHourlyData`,
`translateWeatherCode` and `parseFloat`.

Machine reals: Go parses temperature/pressure with `strconv.ParseFloat`
(float64) and prints with `fmt.Sprintf("%.1f", ·)`.  The embedding
models binary64 exactly with integer arithmetic: `goParseFloat` follows
strconv's `special`, `underscoreOK` and `readFloat` (decimal and
hexadecimal literals, underscores, the Inf/Infinity/NaN specials) and
rounds the exact literal value to the nearest binary64 with IEEE-754
unbiased (ties-to-even) rounding, overflow being strconv's ErrRange;
`fmtOneDecimal` prints NaN and the infinities verbatim and otherwise
rounds the exact binary value half-to-even to one fractional digit,
which is Go's fixed-precision formatting rule.

Strings: Go's `strings.Split(s, "\n")`, `strings.ToLower` and
`strings.TrimSpace` are modelled by the structurally recursive
`splitLines`, `toLowerString` and `trimString` below.

Terminal styling: lipgloss `Render` adds colours, borders, padding and
centring; no property below depends on those bytes, so each style's
`Render` is modelled as the identity on its text argument.
-/

structure HourlyData where
  time : String
  weather : String
  temp : String
  pressure : String
  pressureLevel : String
  deriving Repr, DecidableEq

structure WeatherData where
  placeName : String
  placeId : String
  prefecturesId : String
  dateTime : String
  yesterday : List HourlyData
  today : List HourlyData
  tomorrow : List HourlyData
  dayAfterTom : List HourlyData
  deriving Repr, DecidableEq

structure Model where
  weatherData : WeatherData
  dayFilter : String
  areaCode : String
  loading : Bool
  err : Option String
  scrollPos : Int
  currentDay : Int
  width : Int
  height : Int
  deriving Repr, DecidableEq

/-- Go `strings.Split(s, "\n")`: the empty string yields one empty
field, a trailing newline yields a trailing empty field. -/
def splitLines (s : String) : List String :=
  ((s.toList.foldr (fun c acc =>
      if c = '\n' then [] :: acc
      else (c :: acc.headD []) :: acc.tail) [[]]).map fun cs => String.mk cs)

/-- Go `strings.ToLower` (ASCII is all this program feeds it). -/
def toLowerString (s : String) : String :=
  String.mk (s.toList.map Char.toLower)

/-- Go `strings.TrimSpace`: drop leading and trailing whitespace. -/
def trimString (s : String) : String :=
  String.mk (((s.toList.dropWhile Char.isWhitespace).reverse.dropWhile
    Char.isWhitespace).reverse)

/-- Lipgloss styled rendering, modelled as the identity on the text
(colours, borders, widths and padding are opaque to every property
verified here). -/
def appStyleRender (s : String) : String := s

def dayHeaderStyleRender (s : String) : String := s

def tableHeaderStyleRender (_w : Int) (s : String) : String := s

def cellStyleRender (_w : Int) (s : String) : String := s

def errorStyleRender (s : String) : String := s

def loadingStyleRender (s : String) : String := s

def footerStyleRender (s : String) : String := s

/-- Column widths for table rendering (src/main.go `const` block). -/
def timeWidth : Int := 8

def weatherWidth : Int := 10

def tempWidth : Int := 10

def pressureWidth : Int := 15

def levelWidth : Int := 20

/-- An IEEE-754 binary64 value as `strconv.ParseFloat` produces it:
NaN, a signed infinity, or a signed finite value `mant × 2 ^ exp` with
`mant < 2 ^ 53` (`mant = 0` gives a signed zero). -/
inductive GoFloat where
  | nan
  | inf (neg : Bool)
  | finite (neg : Bool) (mant : Nat) (exp : Int)
  deriving Repr, DecidableEq

/-- The exact value read from a number literal before rounding:
`(-1)^neg × mant × 10 ^ exp10 × 2 ^ exp2` (decimal literals have
`exp2 = 0`, hexadecimal ones `exp10 = 0`). -/
structure ParsedNumber where
  neg : Bool
  mant : Nat
  exp10 : Int
  exp2 : Int
  deriving Repr, DecidableEq

/-- Decimal digits to a natural number. -/
def digitsToNat (cs : List Char) : Nat :=
  cs.foldl (fun a c => a * 10 + (c.toNat - 48)) 0

/-- strconv's `special`, composed with ParseFloat's whole-string check:
the case-insensitive strings `inf` and `infinity` (optionally signed)
and the unsigned `nan` are the special float values. -/
def parseSpecial (s : String) : Option GoFloat :=
  let cs := s.toList.map Char.toLower
  match cs with
  | '+' :: rest =>
    if rest = ['i','n','f'] ∨ rest = ['i','n','f','i','n','i','t','y'] then
      some (GoFloat.inf false) else none
  | '-' :: rest =>
    if rest = ['i','n','f'] ∨ rest = ['i','n','f','i','n','i','t','y'] then
      some (GoFloat.inf true) else none
  | _ =>
    if cs = ['i','n','f'] ∨ cs = ['i','n','f','i','n','i','t','y'] then
      some (GoFloat.inf false)
    else if cs = ['n','a','n'] then some GoFloat.nan
    else none

/-- The scan of strconv's `underscoreOK`: `saw` is `'^'` at the start,
`'0'` after a digit (or a base prefix), `'_'` after an underscore, and
`'!'` otherwise; every underscore must follow a digit and be followed
by one. -/
def underscoreOKAux (hex : Bool) : Char → List Char → Bool
  | saw, [] => if saw = '_' then false else true
  | saw, c :: rest =>
    if ('0' ≤ c ∧ c ≤ '9') ∨ (hex ∧ 'a' ≤ c.toLower ∧ c.toLower ≤ 'f') then
      underscoreOKAux hex '0' rest
    else if c = '_' then
      (if saw = '0' then underscoreOKAux hex '_' rest else false)
    else if saw = '_' then false
    else underscoreOKAux hex '!' rest

/-- strconv's `underscoreOK`: underscores may appear only between
digits, or between a base prefix and a digit. -/
def underscoreOK (s : String) : Bool :=
  let cs := s.toList
  let cs1 := match cs with
    | '+' :: rest => rest
    | '-' :: rest => rest
    | _ => cs
  match cs1 with
  | '0' :: b :: rest =>
    if b.toLower = 'b' ∨ b.toLower = 'o' ∨ b.toLower = 'x' then
      underscoreOKAux (b.toLower = 'x') '0' rest
    else underscoreOKAux false '^' cs1
  | _ => underscoreOKAux false '^' cs1

def decDigitOrUnder (c : Char) : Bool := c.isDigit ∨ c = '_'

def hexDigit (c : Char) : Bool :=
  c.isDigit ∨ ('a' ≤ c.toLower ∧ c.toLower ≤ 'f')

def hexDigitOrUnder (c : Char) : Bool := hexDigit c ∨ c = '_'

def hexVal (c : Char) : Nat :=
  if c.isDigit then c.toNat - 48 else c.toLower.toNat - 87

def hexToNat (cs : List Char) : Nat :=
  cs.foldl (fun a c => a * 16 + hexVal c) 0

/-- An exponent part after `e`/`E`/`p`/`P`: optional sign, then decimal
digits (the first character must be a digit, underscores may follow);
returns the exponent value and the unconsumed rest. -/
def readExponent (cs : List Char) : Option (Int × List Char) :=
  let signPair : Int × List Char :=
    match cs with
    | '-' :: r => (-1, r)
    | '+' :: r => (1, r)
    | _ => (1, cs)
  match signPair.2 with
  | [] => none
  | d :: _ =>
    if ¬d.isDigit then none
    else
      let eds := signPair.2.takeWhile decDigitOrUnder
      let rest := signPair.2.dropWhile decDigitOrUnder
      some (signPair.1 * (digitsToNat (eds.filter Char.isDigit) : Int), rest)

/-- The decimal branch of strconv's `readFloat`, whole string: digits
with an optional dot (at least one digit overall) and an optional
`e`/`E` exponent; underscores are skipped here and validated by
`underscoreOK`. -/
def readDec (neg : Bool) (cs : List Char) : Option ParsedNumber :=
  let intRaw := cs.takeWhile decDigitOrUnder
  let cs2 := cs.dropWhile decDigitOrUnder
  let fracPair : List Char × List Char :=
    match cs2 with
    | '.' :: rest => (rest.takeWhile decDigitOrUnder, rest.dropWhile decDigitOrUnder)
    | _ => ([], cs2)
  let intDigits := intRaw.filter Char.isDigit
  let fracDigits := fracPair.1.filter Char.isDigit
  let cs3 := fracPair.2
  if intDigits.isEmpty ∧ fracDigits.isEmpty then none
  else
    let mant := digitsToNat (intDigits ++ fracDigits)
    match cs3 with
    | [] => some ⟨neg, mant, -(fracDigits.length : Int), 0⟩
    | c :: rest =>
      if c.toLower = 'e' then
        match readExponent rest with
        | some ev =>
          if ev.2.isEmpty then
            some ⟨neg, mant, ev.1 - (fracDigits.length : Int), 0⟩
          else none
        | none => none
      else none

/-- The hexadecimal branch of strconv's `readFloat` (after `0x`/`0X`),
whole string: hex digits with an optional dot and a mandatory `p`/`P`
binary exponent; each fractional hex digit scales by 2⁻⁴. -/
def readHex (neg : Bool) (cs : List Char) : Option ParsedNumber :=
  let intRaw := cs.takeWhile hexDigitOrUnder
  let cs2 := cs.dropWhile hexDigitOrUnder
  let fracPair : List Char × List Char :=
    match cs2 with
    | '.' :: rest => (rest.takeWhile hexDigitOrUnder, rest.dropWhile hexDigitOrUnder)
    | _ => ([], cs2)
  let intDigits := intRaw.filter hexDigit
  let fracDigits := fracPair.1.filter hexDigit
  let cs3 := fracPair.2
  if intDigits.isEmpty ∧ fracDigits.isEmpty then none
  else
    let mant := hexToNat (intDigits ++ fracDigits)
    match cs3 with
    | [] => none
    | c :: rest =>
      if c.toLower = 'p' then
        match readExponent rest with
        | some ev =>
          if ev.2.isEmpty then
            some ⟨neg, mant, 0, ev.1 - 4 * (fracDigits.length : Int)⟩
          else none
        | none => none
      else none

/-- strconv's `readFloat`, whole string: optional sign, then a decimal
or (after `0x`/`0X`) hexadecimal float literal. -/
def readNumber (s : String) : Option ParsedNumber :=
  let cs := s.toList
  let signPair : Bool × List Char :=
    match cs with
    | '-' :: rest => (true, rest)
    | '+' :: rest => (false, rest)
    | _ => (false, cs)
  match signPair.2 with
  | '0' :: x :: rest =>
    if x.toLower = 'x' then readHex signPair.1 rest
    else readDec signPair.1 signPair.2
  | _ => readDec signPair.1 signPair.2

/-- Number of binary digits of `n` (0 for 0), by fuel recursion so the
kernel can evaluate it. -/
def bitlenAux : Nat → Nat → Nat
  | 0, _ => 0
  | fuel + 1, n => if n = 0 then 0 else bitlenAux fuel (n / 2) + 1

def bitlen (n : Nat) : Nat := bitlenAux n n

/-- Round the fraction p/q (q > 0) to the nearest integer, ties to
even. -/
def roundRatHalfEven (p q : Nat) : Nat :=
  let quo := p / q
  let rem := p % q
  if 2 * rem < q then quo
  else if 2 * rem > q then quo + 1
  else if quo % 2 = 0 then quo else quo + 1

/-- Round the exact nonzero value of a parsed literal to the nearest
binary64 (IEEE-754 unbiased rounding, ties to even, subnormals at
exponent −1074), as ParseFloat guarantees; `none` is the overflow case
(|result| ≥ 2¹⁰²⁴), strconv's ErrRange. -/
def roundToBinary64 (pn : ParsedNumber) : Option GoFloat :=
  let p := pn.mant * 10 ^ pn.exp10.toNat * 2 ^ pn.exp2.toNat
  let q := 10 ^ (-pn.exp10).toNat * 2 ^ (-pn.exp2).toNat
  let c : Int := (bitlen p : Int) - (bitlen q : Int)
  let k0 : Int :=
    if 0 ≤ c then (if q * 2 ^ c.toNat ≤ p then c else c - 1)
    else (if q ≤ p * 2 ^ (-c).toNat then c else c - 1)
  let k : Int := max (k0 - 52) (-1074)
  let n := if 0 ≤ k then roundRatHalfEven p (q * 2 ^ k.toNat)
           else roundRatHalfEven (p * 2 ^ (-k).toNat) q
  let nk : Nat × Int := if n = 2 ^ 53 then (2 ^ 52, k + 1) else (n, k)
  if (bitlen nk.1 : Int) + nk.2 > 1024 then none
  else some (GoFloat.finite pn.neg nk.1 nk.2)

/-- Go `strconv.ParseFloat(s, 64)` with its two error outcomes mapped
to `none`: syntax errors, and the overflow ErrRange (underflow rounds
to a signed zero with no error, as in strconv).  The program's wrapper
discards the value whenever the error is non-nil, so the distinction
between the error kinds is invisible to it. -/
def goParseFloat (s : String) : Option GoFloat :=
  match parseSpecial s with
  | some f => some f
  | none =>
    if underscoreOK s then
      match readNumber s with
      | none => none
      | some pn =>
        if pn.mant = 0 then some (GoFloat.finite pn.neg 0 0)
        else roundToBinary64 pn
    else none

/-- `parseFloat` converts a string to a number, returning 0 if the
conversion fails (src/main.go:97). -/
def parseFloat (s : String) : GoFloat :=
  match goParseFloat s with
  | some f => f
  | none => GoFloat.finite false 0 0

/-- Go `fmt.Sprintf("%.1f", f)`: NaN and the infinities print verbatim;
a finite value prints sign, integer part and exactly one fractional
digit, rounding the exact binary value half to even (the rule of
strconv's fixed-precision formatting). -/
def fmtOneDecimal (f : GoFloat) : String :=
  match f with
  | GoFloat.nan => "NaN"
  | GoFloat.inf false => "+Inf"
  | GoFloat.inf true => "-Inf"
  | GoFloat.finite neg mant exp =>
    let n := if 0 ≤ exp then mant * 10 * 2 ^ exp.toNat
             else roundRatHalfEven (mant * 10) (2 ^ (-exp).toNat)
    (if neg then "-" else "") ++ toString (n / 10) ++ "." ++ toString (n % 10)

/-- Weather code lookup (src/main.go:106). -/
def translateWeatherCode (code : String) : String :=
  match code with
  | "100" => "Sunny"
  | "200" => "Cloudy"
  | "300" => "Rainy"
  | _ => "Unknown"

/-- `formatHourlyData` formats a single hourly data entry for display
(src/main.go:129): returns (hour, weather, temp, pressure). -/
def formatHourlyData (entry : HourlyData) : String × String × String × String :=
  let temp := if entry.temp = "#" then "N/A" else entry.temp
  let pressure := if entry.pressure = "#" then "N/A" else entry.pressure
  let hour0 := trimString entry.time
  let hour := if hour0.length = 1 then "0" ++ hour0 else hour0
  let temp := if temp ≠ "N/A" then fmtOneDecimal (parseFloat temp) else temp
  let pressure :=
    if pressure ≠ "N/A" then fmtOneDecimal (parseFloat (trimString pressure))
    else pressure
  let weatherDesc := translateWeatherCode entry.weather
  (hour ++ ":00", weatherDesc, temp, pressure)

/-- `calculateScrollParameters` (src/main.go:179): returns
(visibleHeight, maxScroll). -/
def calculateScrollParameters (m : Model) (numHeaders numContentLines : Int) :
    Int × Int :=
  let headerLines := numHeaders * 3
  let extraLines : Int := 7
  let visibleHeight0 := m.height - headerLines - extraLines
  let visibleHeight := if visibleHeight0 < 3 then 3 else visibleHeight0
  let maxScroll := numContentLines - visibleHeight
  if maxScroll < 0 then (numContentLines, 0) else (visibleHeight, maxScroll)

/-- `getDayData` (src/main.go:204): day name and data for a day index. -/
def Model.getDayData (m : Model) (dayIndex : Int) : String × List HourlyData :=
  if dayIndex = 0 then ("Yesterday", m.weatherData.yesterday)
  else if dayIndex = 1 then ("Today", m.weatherData.today)
  else if dayIndex = 2 then ("Tomorrow", m.weatherData.tomorrow)
  else if dayIndex = 3 then ("Day After Tomorrow", m.weatherData.dayAfterTom)
  else ("Today", m.weatherData.today)

/-- `createTableHeaders` (src/main.go:162). -/
def createTableHeaders : String :=
  let tableHeader :=
    tableHeaderStyleRender timeWidth "Time" ++
    tableHeaderStyleRender weatherWidth "Weather" ++
    tableHeaderStyleRender tempWidth "Temp" ++
    tableHeaderStyleRender pressureWidth "Pressure" ++
    tableHeaderStyleRender levelWidth "Pressure Level"
  let tableUnits :=
    tableHeaderStyleRender timeWidth "" ++
    tableHeaderStyleRender weatherWidth "" ++
    tableHeaderStyleRender tempWidth "(°C)" ++
    tableHeaderStyleRender pressureWidth "(hPa)" ++
    tableHeaderStyleRender levelWidth ""
  tableHeader ++ "\n" ++ tableUnits

/-- `extractHeadersAndContent` (src/main.go:230): header block and
content block for one day. -/
def Model.extractHeadersAndContent (m : Model) (dayName : String)
    (data : List HourlyData) : String × String :=
  if data.isEmpty then ("", "")
  else
    let dayHeader :=
      dayHeaderStyleRender (m.weatherData.placeName ++ " - " ++ dayName)
    let headers := dayHeader ++ "\n" ++ createTableHeaders
    let rows := data.map (fun entry =>
      let f := formatHourlyData entry
      cellStyleRender timeWidth f.1 ++
      cellStyleRender weatherWidth f.2.1 ++
      cellStyleRender tempWidth f.2.2.1 ++
      cellStyleRender pressureWidth f.2.2.2 ++
      cellStyleRender levelWidth entry.pressureLevel)
    (headers, String.intercalate "\n" rows)

def invalidDayMsg : String :=
  "Invalid day specified. Please use: yesterday, today, tomorrow, or dayafter"

def footerTextFree : String :=
  "←/→: Change day  ↑/↓/Mouse wheel: Scroll  PgUp/PgDn: Scroll faster  Home/End: Jump to top/bottom  q: Quit"

def footerTextFiltered : String :=
  "↑/↓/Mouse wheel: Scroll  PgUp/PgDn: Scroll faster  Home/End: Jump to top/bottom  q: Quit"

/-- The day-filter switch at the top of `View` (src/main.go:280):
the list of day headers and the joined content string. -/
def activeHeadersContent (m : Model) : List String × String :=
  match toLowerString m.dayFilter with
  | "yesterday" =>
    let p := m.extractHeadersAndContent "Yesterday" m.weatherData.yesterday
    ([p.1], p.2)
  | "today" =>
    let p := m.extractHeadersAndContent "Today" m.weatherData.today
    ([p.1], p.2)
  | "tomorrow" =>
    let p := m.extractHeadersAndContent "Tomorrow" m.weatherData.tomorrow
    ([p.1], p.2)
  | "dayafter" =>
    let p := m.extractHeadersAndContent "Day After Tomorrow" m.weatherData.dayAfterTom
    ([p.1], p.2)
  | "" =>
    let d := m.getDayData m.currentDay
    let p := m.extractHeadersAndContent d.1 d.2
    if p.1 = "" then ([], "") else ([p.1], p.2)
  | _ => ([], errorStyleRender invalidDayMsg)

/-- The content lines `View` scrolls over: the joined content split on
newlines (src/main.go:310). -/
def viewContentLines (m : Model) : List String :=
  splitLines (activeHeadersContent m).2

/-- The scroll state `View` computes (src/main.go:313-320):
(visibleHeight, maxScroll, clamped scroll position). -/
def viewScroll (m : Model) : Int × Int × Int :=
  let p := calculateScrollParameters m ((activeHeadersContent m).1.length : Int)
    ((viewContentLines m).length : Int)
  let sp :=
    if m.scrollPos < 0 then 0
    else if m.scrollPos > p.2 then p.2
    else m.scrollPos
  (p.1, p.2, sp)

/-- `View` (src/main.go:264): the full frame as a string, with lipgloss
styling modelled as identity. -/
def Model.View (m : Model) : String :=
  match m.err with
  | some e => appStyleRender (errorStyleRender ("Error: " ++ e))
  | none =>
    if m.loading then
      appStyleRender (loadingStyleRender "Loading weather data...\nPlease wait")
    else
      let allHeaders := (activeHeadersContent m).1
      let contentLines := viewContentLines m
      let s := viewScroll m
      let visibleHeight := s.1
      let maxScroll := s.2.1
      let scrollPos := s.2.2
      let startPos :=
        if scrollPos ≥ (contentLines.length : Int) ∧ contentLines.length > 0 then
          (contentLines.length : Int) - 1
        else scrollPos
      let endIdx := min (startPos + visibleHeight) (contentLines.length : Int)
      let visibleContentLines :=
        if contentLines.length > 0 ∧ contentLines.headD "" ≠ "" then
          (contentLines.drop startPos.toNat).take (endIdx - startPos).toNat
        else []
      let visibleContent := String.intercalate "\n" visibleContentLines
      let ind0 := if scrollPos > 0 ∧ maxScroll > 0 then "↑ More above" else ""
      let scrollIndicator :=
        if scrollPos < maxScroll then
          (if ind0 ≠ "" then ind0 ++ " | " else ind0) ++ "↓ More below"
        else ind0
      let pre := if scrollIndicator ≠ "" then scrollIndicator ++ "\n\n" else ""
      let n := allHeaders.length
      let body := String.join (allHeaders.enum.map (fun ih =>
        ih.2 ++ "\n" ++
        (if ih.1 = n - 1 ∧ visibleContent ≠ "" then visibleContent else "") ++
        (if ih.1 < n - 1 then "\n\n" else "")))
      let footerText := if m.dayFilter = "" then footerTextFree else footerTextFiltered
      appStyleRender (pre ++ body ++ "\n\n" ++ footerStyleRender footerText)

inductive MouseButton where
  | wheelUp
  | wheelDown
  | other
  deriving Repr, DecidableEq

/-- The bubbletea messages `Update` dispatches on (src/main.go:558). -/
inductive Msg where
  | windowSize (w h : Int)
  | mouse (b : MouseButton)
  | key (k : String)
  | fetchSuccess (wd : WeatherData)
  | fetchError (e : String)
  deriving Repr, DecidableEq

/-- `Update` (src/main.go:558): the event step on the model.  `q` and
`ctrl+c` return the model unchanged alongside `tea.Quit`, so the state
part is the identity. -/
def Model.Update (m : Model) (msg : Msg) : Model :=
  match msg with
  | .windowSize w h => { m with width := w, height := h }
  | .mouse b =>
    match b with
    | .wheelUp => if m.scrollPos > 0 then { m with scrollPos := m.scrollPos - 1 } else m
    | .wheelDown => { m with scrollPos := m.scrollPos + 1 }
    | .other => m
  | .key k =>
    match k with
    | "q" => m
    | "ctrl+c" => m
    | "up" => if m.scrollPos > 0 then { m with scrollPos := m.scrollPos - 1 } else m
    | "k" => if m.scrollPos > 0 then { m with scrollPos := m.scrollPos - 1 } else m
    | "down" =>
      let dayData := (m.getDayData m.currentDay).2
      let numContentLines : Int := (dayData.length : Int)
      let maxScroll := (calculateScrollParameters m 1 numContentLines).2
      if m.scrollPos < maxScroll then { m with scrollPos := m.scrollPos + 1 } else m
    | "j" =>
      let dayData := (m.getDayData m.currentDay).2
      let numContentLines : Int := (dayData.length : Int)
      let maxScroll := (calculateScrollParameters m 1 numContentLines).2
      if m.scrollPos < maxScroll then { m with scrollPos := m.scrollPos + 1 } else m
    | "left" =>
      if m.dayFilter = "" ∧ m.currentDay > 0 then
        { m with currentDay := m.currentDay - 1, scrollPos := 0 }
      else m
    | "h" =>
      if m.dayFilter = "" ∧ m.currentDay > 0 then
        { m with currentDay := m.currentDay - 1, scrollPos := 0 }
      else m
    | "right" =>
      if m.dayFilter = "" ∧ m.currentDay < 3 then
        { m with currentDay := m.currentDay + 1, scrollPos := 0 }
      else m
    | "l" =>
      if m.dayFilter = "" ∧ m.currentDay < 3 then
        { m with currentDay := m.currentDay + 1, scrollPos := 0 }
      else m
    | "home" => { m with scrollPos := 0 }
    | "end" => { m with scrollPos := 999 }
    | "pageup" =>
      let sp := m.scrollPos - 10
      { m with scrollPos := if sp < 0 then 0 else sp }
    | "pagedown" => { m with scrollPos := m.scrollPos + 10 }
    | _ => m
  | .fetchSuccess wd => { m with weatherData := wd, loading := false }
  | .fetchError e => { m with err := some e, loading := false }

/-! Helper lemmas and concrete states -/

theorem calcParams_snd_nonneg (m : Model) (a b : Int) :
    0 ≤ (calculateScrollParameters m a b).2 := by
  simp only [calculateScrollParameters]
  split_ifs <;> dsimp only <;> omega

def entryBlank : HourlyData := ⟨"", "", "#", "#", ""⟩

def emptyWeather : WeatherData := ⟨"", "", "", "", [], [], [], []⟩

/-- The C2 scenario state: no day filter, current day Today, terminal
height 24, Today holding 24 hourly rows. -/
def m24 : Model :=
  { weatherData := { emptyWeather with today := List.replicate 24 entryBlank },
    dayFilter := "", areaCode := "", loading := false, err := none,
    scrollPos := 0, currentDay := 1, width := 80, height := 24 }

/-- Claim C1: for every viewport state (any requested scrollOffset,
including the jump-to-end sentinel 999, any terminal height, any active
day's row count), the scroll offset used by render after its clamping
step satisfies 0 ≤ scrollOffset ≤ maxScroll, where maxScroll is the
render-computed bound for the current height and active content. -/
theorem scrollOffset_clamped_in_range (m : Model) :
    0 ≤ (viewScroll m).2.2 ∧ (viewScroll m).2.2 ≤ (viewScroll m).2.1 := by
  have h := calcParams_snd_nonneg m ((activeHeadersContent m).1.length : Int)
    ((viewContentLines m).length : Int)
  simp only [viewScroll]
  split_ifs <;> constructor <;> omega

/-- Claim C2: the render computes visibleHeight = max(3, h − n×3 − 7)
and maxScroll = max(0, r − visibleHeight), with visibleHeight reduced to
r when r ≤ visibleHeight; in the concrete scenario (no day filter,
current day Today, terminal height 24, 24 hourly rows for Today) this
gives visibleHeight = 14 and maxScroll = 10, and after the jump-to-end
sentinel the render-clamped scroll offset is exactly 10. -/
theorem scroll_parameters_formula_and_scenario :
    (∀ (m : Model) (n r : Int),
        calculateScrollParameters m n r =
          (if r ≤ max 3 (m.height - n * 3 - 7) then r else max 3 (m.height - n * 3 - 7),
           max 0 (r - max 3 (m.height - n * 3 - 7)))) ∧
    (viewScroll m24).1 = 14 ∧ (viewScroll m24).2.1 = 10 ∧
    (viewScroll (Model.Update m24 (Msg.key "end"))).2.2 = 10 := by
  refine ⟨fun m n r => ?_, by decide, by decide, by decide⟩
  simp only [calculateScrollParameters]
  split_ifs <;> rw [Prod.mk.injEq] <;> constructor <;> omega

/-- The C3 counterexample state: no day filter, current day Today with
no rows, scroll offset 0. -/
def mScrollEmpty : Model :=
  { weatherData := emptyWeather, dayFilter := "", areaCode := "",
    loading := false, err := none, scrollPos := 0, currentDay := 1,
    width := 80, height := 24 }

/-- Claim C3, counterexample: the keyboard scroll-down at this state
does not adjust scrollOffset by +1 — the handler recomputes maxScroll
(here 0) at operation time and refuses the increment, so the upper
bound is not deferred to render for this operation. -/
theorem key_down_bounded_counterexample :
    (Model.Update mScrollEmpty (Msg.key "down")).scrollPos ≠
      mScrollEmpty.scrollPos + 1 := by decide

/-- Claim C3 as amended: up/k and wheel-up decrement scrollOffset by 1
with the lower clamp at 0 applied immediately; mouse wheel-down
increments by 1 unconditionally, its upper clamp deferred to render;
the keyboard down/j handler applies the upper bound immediately,
incrementing only while below the maxScroll it recomputes from the
active day's row count at operation time. -/
theorem scroll_ops_clamping_amended (m : Model) :
    (Model.Update m (Msg.key "up")).scrollPos =
      (if m.scrollPos > 0 then m.scrollPos - 1 else m.scrollPos) ∧
    (Model.Update m (Msg.mouse MouseButton.wheelUp)).scrollPos =
      (if m.scrollPos > 0 then m.scrollPos - 1 else m.scrollPos) ∧
    (Model.Update m (Msg.mouse MouseButton.wheelDown)).scrollPos =
      m.scrollPos + 1 ∧
    (Model.Update m (Msg.key "down")).scrollPos =
      (if m.scrollPos <
          (calculateScrollParameters m 1
            (((m.getDayData m.currentDay).2.length : Int))).2
       then m.scrollPos + 1 else m.scrollPos) := by
  refine ⟨?_, ?_, rfl, ?_⟩ <;>
    · simp only [Model.Update]
      split_ifs <;> rfl

/-- A concrete state at the leftmost day index. -/
def mDay0 : Model :=
  { weatherData := emptyWeather, dayFilter := "", areaCode := "",
    loading := false, err := none, scrollPos := 0, currentDay := 0,
    width := 80, height := 24 }

/-- Claim C4: day navigation never moves currentDayIndex outside [0,3];
a left-press at index 0 and a right-press at index 3 leave the whole
state unchanged (hence so does any repetition). -/
theorem dayNav_bounds (m : Model) (h0 : 0 ≤ m.currentDay) (h3 : m.currentDay ≤ 3) :
    (0 ≤ (Model.Update m (Msg.key "left")).currentDay ∧
      (Model.Update m (Msg.key "left")).currentDay ≤ 3) ∧
    (0 ≤ (Model.Update m (Msg.key "right")).currentDay ∧
      (Model.Update m (Msg.key "right")).currentDay ≤ 3) ∧
    (m.currentDay = 0 → Model.Update m (Msg.key "left") = m) ∧
    (m.currentDay = 3 → Model.Update m (Msg.key "right") = m) := by
  refine ⟨?_, ?_, ?_, ?_⟩ <;>
    · simp only [Model.Update]
      split_ifs <;> simp_all <;> omega

theorem dayNav_bounds_witness :
    (0 ≤ mDay0.currentDay ∧ mDay0.currentDay ≤ 3) ∧
    (mDay0.currentDay = 0 → Model.Update mDay0 (Msg.key "left") = mDay0) :=
  ⟨⟨by decide, by decide⟩, (dayNav_bounds mDay0 (by decide) (by decide)).2.2.1⟩

/-- A concrete state at day index Today with a nonzero scroll offset. -/
def mDay1 : Model :=
  { weatherData := emptyWeather, dayFilter := "", areaCode := "",
    loading := false, err := none, scrollPos := 5, currentDay := 1,
    width := 80, height := 24 }

/-- Claim C5: with no day filter, every day change that actually moves
currentDayIndex resets scrollOffset to 0. -/
theorem day_change_resets_scroll (m : Model) (hf : m.dayFilter = "")
    (k : String) (hk : k = "left" ∨ k = "h" ∨ k = "right" ∨ k = "l")
    (hch : (Model.Update m (Msg.key k)).currentDay ≠ m.currentDay) :
    (Model.Update m (Msg.key k)).scrollPos = 0 := by
  rcases hk with rfl | rfl | rfl | rfl <;>
    · simp only [Model.Update] at hch ⊢
      split_ifs at hch ⊢ <;> simp_all

theorem day_change_resets_scroll_witness :
    mDay1.dayFilter = "" ∧
    (Model.Update mDay1 (Msg.key "left")).currentDay ≠ mDay1.currentDay ∧
    (Model.Update mDay1 (Msg.key "left")).scrollPos = 0 :=
  ⟨rfl, by decide,
    day_change_resets_scroll mDay1 rfl "left" (Or.inl rfl) (by decide)⟩

/-- A concrete state with an explicit day filter. -/
def mFiltered : Model :=
  { weatherData := emptyWeather, dayFilter := "today", areaCode := "",
    loading := false, err := none, scrollPos := 2, currentDay := 1,
    width := 80, height := 24 }

/-- Claim C6: when a day filter is set, day navigation (all four key
bindings) leaves the entire state unchanged. -/
theorem dayNav_noop_when_filtered (m : Model) (hf : m.dayFilter ≠ "") :
    Model.Update m (Msg.key "left") = m ∧ Model.Update m (Msg.key "h") = m ∧
    Model.Update m (Msg.key "right") = m ∧ Model.Update m (Msg.key "l") = m := by
  refine ⟨?_, ?_, ?_, ?_⟩ <;>
    · simp only [Model.Update]
      split_ifs <;> simp_all

theorem dayNav_noop_when_filtered_witness :
    mFiltered.dayFilter ≠ "" ∧ Model.Update mFiltered (Msg.key "left") = mFiltered :=
  ⟨by decide, (dayNav_noop_when_filtered mFiltered (by decide)).1⟩

/-! Error permanence (C7) -/

theorem View_err (m : Model) (e : String) (he : m.err = some e) :
    Model.View m = appStyleRender (errorStyleRender ("Error: " ++ e)) := by
  unfold Model.View
  rw [he]

theorem Update_err_eq (m : Model) (msg : Msg)
    (hne : ∀ e2, msg ≠ Msg.fetchError e2) :
    (Model.Update m msg).err = m.err := by
  cases msg with
  | windowSize w h => rfl
  | mouse b =>
    cases b <;> simp only [Model.Update] <;> (try split_ifs) <;> rfl
  | key k =>
    simp only [Model.Update]
    split <;> (try split_ifs) <;> rfl
  | fetchSuccess wd => rfl
  | fetchError e2 => exact absurd rfl (hne e2)

/-- A concrete state holding a stored fetch error. -/
def mErr : Model :=
  { weatherData := emptyWeather, dayFilter := "", areaCode := "",
    loading := false, err := some "boom", scrollPos := 0, currentDay := 1,
    width := 80, height := 24 }

/-- Claim C7: once a fetch error is stored, every render is the
error-only frame; no event ever clears the error; every event other
than a fetch-error delivery leaves the rendered frame unchanged; and no
event turns loading back on, so there is no recovery transition. -/
theorem error_state_terminal (m : Model) (e : String) (he : m.err = some e) :
    Model.View m = appStyleRender (errorStyleRender ("Error: " ++ e)) ∧
    (∀ msg, ((Model.Update m msg).err).isSome) ∧
    (∀ msg, (∀ e2, msg ≠ Msg.fetchError e2) →
      Model.View (Model.Update m msg) = Model.View m) ∧
    (∀ msg, (Model.Update m msg).loading = true → m.loading = true) := by
  refine ⟨View_err m e he, ?_, ?_, ?_⟩
  · intro msg
    by_cases hmsg : ∀ e2, msg ≠ Msg.fetchError e2
    · rw [Update_err_eq m msg hmsg, he]; rfl
    · push_neg at hmsg
      obtain ⟨e2, rfl⟩ := hmsg
      simp [Model.Update]
  · intro msg hne
    rw [View_err _ e (by rw [Update_err_eq m msg hne, he]), View_err m e he]
  · intro msg
    cases msg with
    | windowSize w h => exact fun h2 => h2
    | mouse b =>
      cases b <;> simp only [Model.Update] <;> (try split_ifs) <;>
        exact fun h2 => h2
    | key k =>
      simp only [Model.Update]
      split <;> (try split_ifs) <;> exact fun h2 => h2
    | fetchSuccess wd => simp [Model.Update]
    | fetchError e2 => simp [Model.Update]

theorem error_state_terminal_witness :
    mErr.err = some "boom" ∧
    Model.View mErr = appStyleRender (errorStyleRender ("Error: " ++ "boom")) :=
  ⟨rfl, (error_state_terminal mErr "boom" rfl).1⟩

/-! Cell formatting (C8) -/

/-- An hourly record whose temperature field is the literal "N/A". -/
def entryNAtemp : HourlyData := ⟨"9", "100", "N/A", "1000", "0"⟩

/-- Claim C8, counterexample: an input temperature equal to the literal
"N/A" is passed through unchanged by the formatter, while the claim
(sentinel "#" aside, parse and render; parse failure is the value 0)
demands "0.0" for it — so the claim fails at this record. -/
theorem temp_na_passthrough_counterexample :
    (formatHourlyData entryNAtemp).2.2.1 = "N/A" ∧
    fmtOneDecimal (parseFloat entryNAtemp.temp) = "0.0" ∧
    ("N/A" : String) ≠ "0.0" :=
  ⟨by decide, by decide, by decide⟩

/-- Claim C8 as amended: a temperature or pressure equal to the
sentinel "#" renders "N/A", and one already equal to the literal "N/A"
is passed through unchanged; every other value goes through
strconv.ParseFloat (binary64: decimal or hexadecimal literals with
optional underscores, and the case-insensitive specials Inf/Infinity —
optionally signed — and NaN) and fmt's %.1f (pressure is trimmed before
parsing); a parse error, bad syntax or range overflow, is treated as
the numeric value 0 and renders "0.0"; a finite parsed value renders
with exactly one fractional digit, rounding the binary64 value half to
even, and the specials render "+Inf", "-Inf" and "NaN"; concretely
"23.456" renders "23.5", "0.15" renders "0.1" (the nearest binary64 is
below 0.15), "1_0" renders "10.0", "Inf" renders "+Inf", "1e400"
renders "0.0" and "0x1p-2" renders "0.2". -/
theorem hourly_formatting_amended :
    (∀ entry : HourlyData, entry.temp = "#" →
      (formatHourlyData entry).2.2.1 = "N/A") ∧
    (∀ entry : HourlyData, entry.pressure = "#" →
      (formatHourlyData entry).2.2.2 = "N/A") ∧
    (∀ entry : HourlyData, entry.temp = "N/A" →
      (formatHourlyData entry).2.2.1 = "N/A") ∧
    (∀ entry : HourlyData, entry.pressure = "N/A" →
      (formatHourlyData entry).2.2.2 = "N/A") ∧
    (∀ entry : HourlyData, entry.temp ≠ "#" → entry.temp ≠ "N/A" →
      (formatHourlyData entry).2.2.1 = fmtOneDecimal (parseFloat entry.temp)) ∧
    (∀ entry : HourlyData, entry.pressure ≠ "#" → entry.pressure ≠ "N/A" →
      (formatHourlyData entry).2.2.2 =
        fmtOneDecimal (parseFloat (trimString entry.pressure))) ∧
    (∀ s : String, goParseFloat s = none → fmtOneDecimal (parseFloat s) = "0.0") ∧
    (∀ (neg : Bool) (mant : Nat) (exp : Int), ∃ w f : Nat, f < 10 ∧
      fmtOneDecimal (GoFloat.finite neg mant exp) =
        (if neg then "-" else "") ++ toString w ++ "." ++ toString f) ∧
    (fmtOneDecimal (GoFloat.inf false) = "+Inf" ∧
      fmtOneDecimal (GoFloat.inf true) = "-Inf" ∧
      fmtOneDecimal GoFloat.nan = "NaN") ∧
    (fmtOneDecimal (parseFloat "23.456") = "23.5" ∧
      fmtOneDecimal (parseFloat "0.15") = "0.1" ∧
      fmtOneDecimal (parseFloat "1_0") = "10.0" ∧
      fmtOneDecimal (parseFloat "Inf") = "+Inf" ∧
      fmtOneDecimal (parseFloat "1e400") = "0.0" ∧
      fmtOneDecimal (parseFloat "0x1p-2") = "0.2") := by
  refine ⟨?_, ?_, ?_, ?_, ?_, ?_, ?_, ?_, ⟨rfl, rfl, rfl⟩,
    by decide, by decide, by decide, by decide, by decide, by decide⟩
  · intro entry h
    simp [formatHourlyData, h]
  · intro entry h
    simp [formatHourlyData, h]
  · intro entry h
    simp [formatHourlyData, h]
  · intro entry h
    simp [formatHourlyData, h]
  · intro entry h1 h2
    simp [formatHourlyData, h1, h2]
  · intro entry h1 h2
    simp [formatHourlyData, h1, h2]
  · intro s h
    have h0 : parseFloat s = GoFloat.finite false 0 0 := by
      simp [parseFloat, h]
    rw [h0]
    decide
  · intro neg mant exp
    refine ⟨_, _, ?_, rfl⟩
    exact Nat.mod_lt _ (by omega)

/-- An hourly record with a plain decimal temperature. -/
def entry23 : HourlyData := ⟨"9", "100", "23.456", "#", "0"⟩

theorem hourly_formatting_amended_witness :
    entry23.temp ≠ "#" ∧ entry23.temp ≠ "N/A" ∧
    (formatHourlyData entry23).2.2.1 = fmtOneDecimal (parseFloat entry23.temp) :=
  ⟨by decide, by decide,
    hourly_formatting_amended.2.2.2.2.1 entry23 (by decide) (by decide)⟩

/-! Empty day (C9) -/

/-- A state whose Tomorrow sequence is empty, selected by the explicit
day filter "tomorrow". -/
def mTomEmpty : Model :=
  { weatherData := emptyWeather, dayFilter := "tomorrow", areaCode := "",
    loading := false, err := none, scrollPos := 0, currentDay := 2,
    width := 80, height := 24 }

/-- Claim C9: a day with an empty hourly sequence yields an empty
header block and an empty content block, and rendering that day via an
explicit day filter produces a frame holding only blank lines and the
footer — no table. -/
theorem empty_day_renders_empty :
    (∀ (m : Model) (dayName : String),
        m.extractHeadersAndContent dayName [] = ("", "")) ∧
    Model.View mTomEmpty =
      appStyleRender ("\n" ++ "\n\n" ++ footerStyleRender footerTextFiltered) :=
  ⟨fun _ _ => rfl, by decide⟩

/-! Scroll offset never negative (C10) -/

/-- Claim C10: from any state with a non-negative scroll offset, every
event (key, mouse, resize, fetch success, fetch failure) produces a
state whose scroll offset is still non-negative. -/
theorem update_scrollPos_nonneg (m : Model) (msg : Msg) (h : 0 ≤ m.scrollPos) :
    0 ≤ (Model.Update m msg).scrollPos := by
  cases msg with
  | windowSize w hh => exact h
  | mouse b =>
    cases b <;> simp only [Model.Update] <;> (try split_ifs) <;>
      (try dsimp only) <;> omega
  | key k =>
    simp only [Model.Update]
    split <;> (try split_ifs) <;> (try dsimp only) <;> omega
  | fetchSuccess wd => exact h
  | fetchError e => exact h

theorem update_scrollPos_nonneg_witness :
    0 ≤ mDay1.scrollPos ∧ 0 ≤ (Model.Update mDay1 (Msg.key "pageup")).scrollPos :=
  ⟨by decide, update_scrollPos_nonneg mDay1 (Msg.key "pageup") (by decide)⟩
